import Mathlib

/-!
Verification of the particle-simulation core of the Galaxy-Simulation
repository (src/galaxy.js, src/main.js).

The GPU compute kernels in src/galaxy.js are shallowly embedded as pure
functions over exact rationals.  Scalar GPU builtins (the hash noise
source, pow, sin, cos) and the three force helpers imported from
helpers.js are represented abstractly: helpers.js is not part of the
available sources, so those helpers are modelled from the specification
and every theorem about them quantifies over any implementation
satisfying the contracts the specification states (hash lands in [0,1),
sin and cos satisfy the Pythagorean identity, and so on).
-/

namespace GalaxySim

/-- A 3-component vector of exact rationals, standing for the vec3 values
of the compute shaders. -/
structure Vec3 where
  x : ℚ
  y : ℚ
  z : ℚ
deriving DecidableEq

/-- A 4-component vector, standing for the packed vec4 cloud attribute. -/
structure Vec4 where
  x : ℚ
  y : ℚ
  z : ℚ
  w : ℚ
deriving DecidableEq

/-- The zero vector. -/
def vzero : Vec3 := ⟨0, 0, 0⟩

/-- Componentwise vector addition. -/
def vadd (a b : Vec3) : Vec3 := ⟨a.x + b.x, a.y + b.y, a.z + b.z⟩

/-- Componentwise vector subtraction. -/
def vsub (a b : Vec3) : Vec3 := ⟨a.x - b.x, a.y - b.y, a.z - b.z⟩

/-- Scalar multiple of a vector. -/
def vsmul (c : ℚ) (a : Vec3) : Vec3 := ⟨c * a.x, c * a.y, c * a.z⟩

/-- Squared Euclidean distance between two points. -/
def distSq (a b : Vec3) : ℚ :=
  (a.x - b.x) ^ 2 + (a.y - b.y) ^ 2 + (a.z - b.z) ^ 2

/-- Squared planar distance from the vertical (y) axis. -/
def planarSq (a : Vec3) : ℚ := a.x ^ 2 + a.z ^ 2

/-- The literal the shaders use for 2π (src/galaxy.js writes 6.28318). -/
def twoPi : ℚ := 628318 / 100000

/-- Galaxy shape uniforms (src/galaxy.js, initializeUniforms, group
galaxy). -/
structure GalaxyUniforms where
  radius : ℚ
  thickness : ℚ
  spiralTightness : ℚ
  armCount : ℚ
  armWidth : ℚ
  randomness : ℚ
deriving DecidableEq

/-- Visual uniforms needed by the cloud generation step (only the cloud
tint color matters for the simulation core). -/
structure VisualUniforms where
  cloudTintColor : Vec3
deriving DecidableEq

/-- Per-frame compute uniforms (src/galaxy.js, initializeUniforms, group
compute; time is omitted because no kernel reads it). -/
structure ComputeUniforms where
  deltaTime : ℚ
  mouse : Vec3
  mouseActive : ℚ
  mouseForce : ℚ
  mouseRadius : ℚ
  rotationSpeed : ℚ
deriving DecidableEq

/-- Modelled from the spec: the scalar GPU builtins and the shape of the
helpers imported from helpers.js, which is not among the sources.  The
fields are an arbitrary hash noise source, the pow builtin at the two
exponents the generator uses (0.5 for stars, 0.7 for clouds), sin and
cos, the radial profile of the differential rotation (a function of the
squared planar distance from the axis, larger for closer particles), and
the radial falloff of the pointer force (a function of the squared
distance to the pointer).  Theorems assume of these only what the
specification guarantees. -/
structure GpuFns where
  hash : ℚ → ℚ
  powHalf : ℚ → ℚ
  powSeven : ℚ → ℚ
  sinF : ℚ → ℚ
  cosF : ℚ → ℚ
  rotProfile : ℚ → ℚ
  falloff : ℚ → ℚ

/-- Rational floor, as the shader floor builtin. -/
def floorQ (q : ℚ) : ℚ := ((⌊q⌋ : ℤ) : ℚ)

/-! ## Star generation (src/galaxy.js, computeInit, lines 113-152)

Each internal let-binding of the kernel becomes a definition, so that
theorems can speak about the intermediate quantities the specification
names (radius, arm index, angle, offsets). -/

/-- The seed of a star particle is its instance index (line 115). -/
def starSeed (idx : ℕ) : ℚ := (idx : ℚ)

/-- Line 117: radius = hash(seed+1)^0.5 * galaxyRadius. -/
def starRadius (f : GpuFns) (g : GalaxyUniforms) (idx : ℕ) : ℚ :=
  f.powHalf (f.hash (starSeed idx + 1)) * g.radius

/-- Line 118: normalizedRadius = radius / galaxyRadius. -/
def starNormRadius (f : GpuFns) (g : GalaxyUniforms) (idx : ℕ) : ℚ :=
  starRadius f g idx / g.radius

/-- Line 120: armIndex = floor(hash(seed+2) * armCount). -/
def starArmIndex (f : GpuFns) (g : GalaxyUniforms) (idx : ℕ) : ℚ :=
  floorQ (f.hash (starSeed idx + 2) * g.armCount)

/-- Line 121: armAngle = armIndex * 6.28318 / armCount. -/
def starArmAngle (f : GpuFns) (g : GalaxyUniforms) (idx : ℕ) : ℚ :=
  starArmIndex f g idx * twoPi / g.armCount

/-- Line 123: spiralAngle = normalizedRadius * spiralTightness * 6.28318. -/
def starSpiralAngle (f : GpuFns) (g : GalaxyUniforms) (idx : ℕ) : ℚ :=
  starNormRadius f g idx * g.spiralTightness * twoPi

/-- Line 125: angleOffset = (hash(seed+3) - 0.5) * randomness. -/
def starAngleOffset (f : GpuFns) (g : GalaxyUniforms) (idx : ℕ) : ℚ :=
  (f.hash (starSeed idx + 3) - 1/2) * g.randomness

/-- Line 126: radiusOffset = (hash(seed+4) - 0.5) * armWidth. -/
def starRadiusOffset (f : GpuFns) (g : GalaxyUniforms) (idx : ℕ) : ℚ :=
  (f.hash (starSeed idx + 4) - 1/2) * g.armWidth

/-- Line 128: angle = armAngle + spiralAngle + angleOffset. -/
def starAngle (f : GpuFns) (g : GalaxyUniforms) (idx : ℕ) : ℚ :=
  starArmAngle f g idx + starSpiralAngle f g idx + starAngleOffset f g idx

/-- Line 129: offsetRadius = radius + radiusOffset. -/
def starOffsetRadius (f : GpuFns) (g : GalaxyUniforms) (idx : ℕ) : ℚ :=
  starRadius f g idx + starRadiusOffset f g idx

/-- Line 134: thicknessFactor = (1.0 - normalizedRadius) + 0.2. -/
def starThicknessFactor (f : GpuFns) (g : GalaxyUniforms) (idx : ℕ) : ℚ :=
  1 - starNormRadius f g idx + 1/5

/-- Line 135: y = (hash(seed+5) - 0.5) * thickness * thicknessFactor. -/
def starY (f : GpuFns) (g : GalaxyUniforms) (idx : ℕ) : ℚ :=
  (f.hash (starSeed idx + 5) - 1/2) * g.thickness * starThicknessFactor f g idx

/-- Lines 131-137: position = (cos(angle)*offsetRadius, y,
sin(angle)*offsetRadius). -/
def starPosition (f : GpuFns) (g : GalaxyUniforms) (idx : ℕ) : Vec3 :=
  ⟨f.cosF (starAngle f g idx) * starOffsetRadius f g idx,
   starY f g idx,
   f.sinF (starAngle f g idx) * starOffsetRadius f g idx⟩

/-- Line 142: orbitalSpeed = 1.0 / (offsetRadius + 0.5) * 5.0. -/
def starOrbitalSpeed (f : GpuFns) (g : GalaxyUniforms) (idx : ℕ) : ℚ :=
  1 / (starOffsetRadius f g idx + 1/2) * 5

/-- Lines 143-145: velocity = (-sin(angle)*orbitalSpeed, 0,
cos(angle)*orbitalSpeed). -/
def starVelocity (f : GpuFns) (g : GalaxyUniforms) (idx : ℕ) : Vec3 :=
  ⟨-(f.sinF (starAngle f g idx) * starOrbitalSpeed f g idx),
   0,
   f.cosF (starAngle f g idx) * starOrbitalSpeed f g idx⟩

/-- Line 147: radialSparsity = |radiusOffset| / (armWidth*0.5 + 0.01). -/
def starRadialSparsity (f : GpuFns) (g : GalaxyUniforms) (idx : ℕ) : ℚ :=
  |starRadiusOffset f g idx| / (g.armWidth * (1/2) + 1/100)

/-- Line 148: angularSparsity = |angleOffset| / (randomness*0.5 + 0.01). -/
def starAngularSparsity (f : GpuFns) (g : GalaxyUniforms) (idx : ℕ) : ℚ :=
  |starAngleOffset f g idx| / (g.randomness * (1/2) + 1/100)

/-- Line 149: sparsityFactor = min((radialSparsity + angularSparsity)*0.5,
1.0). -/
def starSparsity (f : GpuFns) (g : GalaxyUniforms) (idx : ℕ) : ℚ :=
  min ((starRadialSparsity f g idx + starAngularSparsity f g idx) * (1/2)) 1

/-- The full record the star generation kernel writes for one index:
spawn position, anchor (original position), velocity, and the sparsity
attribute. -/
structure StarData where
  position : Vec3
  anchor : Vec3
  velocity : Vec3
  sparsity : ℚ
deriving DecidableEq

/-- The star generation kernel computeInit (src/galaxy.js lines 113-152)
as a pure function of the GPU builtins, the shape uniforms, and the
particle index: lines 139-140 write the same position value to both the
spawn-position and the original-position buffer. -/
def computeInit (f : GpuFns) (g : GalaxyUniforms) (idx : ℕ) : StarData :=
  ⟨starPosition f g idx, starPosition f g idx,
   starVelocity f g idx, starSparsity f g idx⟩

/-! ## Cloud generation (src/galaxy.js, cloudInit, lines 245-285) -/

/-- Line 247: the cloud seed is the index offset by 10000. -/
def cloudSeed (idx : ℕ) : ℚ := (idx : ℚ) + 10000

/-- Line 249: radius = hash(seed+1)^0.7 * galaxyRadius. -/
def cloudRadius (f : GpuFns) (g : GalaxyUniforms) (idx : ℕ) : ℚ :=
  f.powSeven (f.hash (cloudSeed idx + 1)) * g.radius

/-- Line 250: normalizedRadius = radius / galaxyRadius. -/
def cloudNormRadius (f : GpuFns) (g : GalaxyUniforms) (idx : ℕ) : ℚ :=
  cloudRadius f g idx / g.radius

/-- Lines 252-261: the cloud angle, built exactly like the star angle but
from the cloud seed. -/
def cloudAngle (f : GpuFns) (g : GalaxyUniforms) (idx : ℕ) : ℚ :=
  floorQ (f.hash (cloudSeed idx + 2) * g.armCount) * twoPi / g.armCount
    + cloudNormRadius f g idx * g.spiralTightness * twoPi
    + (f.hash (cloudSeed idx + 3) - 1/2) * g.randomness

/-- Line 261: offsetRadius = radius + (hash(seed+4) - 0.5) * armWidth. -/
def cloudOffsetRadius (f : GpuFns) (g : GalaxyUniforms) (idx : ℕ) : ℚ :=
  cloudRadius f g idx + (f.hash (cloudSeed idx + 4) - 1/2) * g.armWidth

/-- Lines 263-269: the generated cloud position, with thickness constant
0.15 (line 266). -/
def cloudPosition (f : GpuFns) (g : GalaxyUniforms) (idx : ℕ) : Vec3 :=
  ⟨f.cosF (cloudAngle f g idx) * cloudOffsetRadius f g idx,
   (f.hash (cloudSeed idx + 5) - 1/2) * g.thickness
     * (1 - cloudNormRadius f g idx + 3/20),
   f.sinF (cloudAngle f g idx) * cloudOffsetRadius f g idx⟩

/-- Lines 274-281: packed cloud color and size attribute. -/
def cloudColorSize (f : GpuFns) (g : GalaxyUniforms) (v : VisualUniforms)
    (idx : ℕ) : Vec4 :=
  let tint := v.cloudTintColor
  let shade := 1 - cloudNormRadius f g idx * (3/10)
  let density := 1 - cloudNormRadius f g idx * (1/2)
  ⟨tint.x * shade, tint.y * shade, tint.z * shade,
   (f.hash (cloudSeed idx + 6) * (1/2) + 7/10) * density⟩

/-- The record the cloud generation kernel writes for one index. -/
structure CloudData where
  position : Vec3
  anchor : Vec3
  colorSize : Vec4
  rollAngle : ℚ
deriving DecidableEq

/-- The cloud generation kernel cloudInit (src/galaxy.js lines 245-285)
as a pure function: lines 271-272 write the same position value to both
the position and the original-position buffer, and line 283 draws the
billboard roll angle. -/
def cloudInit (f : GpuFns) (g : GalaxyUniforms) (v : VisualUniforms)
    (idx : ℕ) : CloudData :=
  ⟨cloudPosition f g idx, cloudPosition f g idx,
   cloudColorSize f g v idx,
   f.hash (cloudSeed idx + 7) * twoPi⟩

/-! ## The per-frame physics kernel (src/galaxy.js, computeUpdate lines
154-192 and cloudUpdate lines 287-325) -/

/-- Modelled from the spec: applyDifferentialRotation of the missing
helpers.js rotates a point about the vertical axis by an angle built
from rotationSpeed, deltaTime and the point's distance from the axis
(closer points turn through a larger angle); the radial dependence is
kept abstract in the rotProfile field of GpuFns, applied to the squared
planar distance. -/
def applyDifferentialRotation (f : GpuFns) (p : Vec3)
    (rotationSpeed deltaTime : ℚ) : Vec3 :=
  let a := rotationSpeed * deltaTime * f.rotProfile (planarSq p)
  ⟨f.cosF a * p.x + f.sinF a * p.z,
   p.y,
   -(f.sinF a) * p.x + f.cosF a * p.z⟩

/-- Modelled from the spec: applyMouseForce of the missing helpers.js
returns the pointer-force displacement: zero when the pointer is
inactive (mouseActive is the 0/1 float uniform) or the particle lies at
or beyond mouseRadius from the pointer, and otherwise a repulsive
displacement along the vector from the pointer to the particle, scaled
by mouseForce, deltaTime and a radial falloff kept abstract in the
falloff field of GpuFns. -/
def applyMouseForce (f : GpuFns) (pos mouse : Vec3)
    (mouseActive mouseForce mouseRadius deltaTime : ℚ) : Vec3 :=
  if mouseActive ≠ 0 ∧ distSq pos mouse < mouseRadius ^ 2 then
    vsmul (mouseForce * deltaTime * f.falloff (distSq pos mouse))
      (vsub pos mouse)
  else vzero

/-- Modelled from the spec: applySpringForce of the missing helpers.js
returns a proportional single-step displacement toward the target,
scaled by the stiffness constant and deltaTime. -/
def applySpringForce (pos target : Vec3) (stiffness deltaTime : ℚ) : Vec3 :=
  vsmul (stiffness * deltaTime) (vsub target pos)

/-- The (position, anchor) pair the update kernels read and write. -/
structure ParticleState where
  position : Vec3
  anchor : Vec3
deriving DecidableEq

/-- The shared body of computeUpdate and cloudUpdate (they differ only in
the spring stiffness constant): rotate position, rotate the anchor and
store it back, add the pointer force evaluated at the rotated position,
then add the spring displacement toward the rotated anchor. -/
def updateKernel (f : GpuFns) (stiffness : ℚ) (u : ComputeUniforms)
    (st : ParticleState) : ParticleState :=
  let rotatedPos := applyDifferentialRotation f st.position
    u.rotationSpeed u.deltaTime
  let rotatedOriginal := applyDifferentialRotation f st.anchor
    u.rotationSpeed u.deltaTime
  let p1 := vadd rotatedPos (applyMouseForce f rotatedPos u.mouse
    u.mouseActive u.mouseForce u.mouseRadius u.deltaTime)
  let p2 := vadd p1 (applySpringForce p1 rotatedOriginal stiffness
    u.deltaTime)
  ⟨p2, rotatedOriginal⟩

/-- The star physics kernel computeUpdate (src/galaxy.js lines 154-192),
with spring stiffness 2.0 (line 186). -/
def computeUpdate (f : GpuFns) (u : ComputeUniforms)
    (st : ParticleState) : ParticleState :=
  updateKernel f 2 u st

/-- The cloud physics kernel cloudUpdate (src/galaxy.js lines 287-325),
with spring stiffness 1.0 (line 319). -/
def cloudUpdate (f : GpuFns) (u : ComputeUniforms)
    (st : ParticleState) : ParticleState :=
  updateKernel f 1 u st

/-! ## Controller lifecycle (src/galaxy.js, update lines 407-428,
regenerate lines 430-433, updateStarCount lines 359-364) -/

/-- Per-frame physics applied to a full star record: the kernel touches
position and anchor only; velocity and the sparsity attribute are left
unchanged (the update kernel never reads or writes those buffers). -/
def updateStar (f : GpuFns) (u : ComputeUniforms) (d : StarData) :
    StarData :=
  let k := computeUpdate f u ⟨d.position, d.anchor⟩
  ⟨k.position, k.anchor, d.velocity, d.sparsity⟩

/-- Per-frame physics applied to a full cloud record. -/
def updateCloud (f : GpuFns) (u : ComputeUniforms) (d : CloudData) :
    CloudData :=
  let k := cloudUpdate f u ⟨d.position, d.anchor⟩
  ⟨k.position, k.anchor, d.colorSize, d.rollAngle⟩

/-- The zeroed star record of a freshly allocated buffer. -/
def blankStar : StarData := ⟨vzero, vzero, vzero, 0⟩

/-- The simulation controller state: the uniforms it holds, the star and
cloud buffers (as total functions of the index), and the two
initialization flags of the GalaxySimulation class. -/
structure SimState where
  count : ℕ
  g : GalaxyUniforms
  v : VisualUniforms
  mouseForce : ℚ
  mouseRadius : ℚ
  rotationSpeed : ℚ
  stars : ℕ → StarData
  clouds : ℕ → CloudData
  initFlag : Bool
  cloudInitFlag : Bool

/-- The per-frame inputs of GalaxySimulation.update. -/
structure FrameInput where
  deltaTime : ℚ
  mouse : Vec3
  mousePressed : Bool
deriving DecidableEq

/-- The compute uniforms as update sets them (src/galaxy.js lines
418-421): deltaTime and the pointer state come from the frame input, the
rest are the stored uniform values. -/
def frameUniforms (s : SimState) (inp : FrameInput) : ComputeUniforms :=
  ⟨inp.deltaTime, inp.mouse, if inp.mousePressed then 1 else 0,
   s.mouseForce, s.mouseRadius, s.rotationSpeed⟩

/-- The star generation output of one epoch, as a whole buffer. -/
def genStars (f : GpuFns) (g : GalaxyUniforms) : ℕ → StarData :=
  fun i => computeInit f g i

/-- The cloud generation output of one epoch, as a whole buffer. -/
def genClouds (f : GpuFns) (g : GalaxyUniforms) (v : VisualUniforms) :
    ℕ → CloudData :=
  fun i => cloudInit f g v i

/-- The star branch of GalaxySimulation.update (src/galaxy.js lines
408-411): when the star subsystem is uninitialized, dispatch computeInit
over the whole buffer and set the flag. -/
def genPhase (f : GpuFns) (s : SimState) : SimState :=
  if s.initFlag then s else
    { s with stars := genStars f s.g, initFlag := true }

/-- The cloud branch of GalaxySimulation.update (src/galaxy.js lines
413-416): when the cloud subsystem is uninitialized, dispatch cloudInit
and set the flag. -/
def cloudGenPhase (f : GpuFns) (s : SimState) : SimState :=
  if s.cloudInitFlag then s else
    { s with clouds := genClouds f s.g s.v, cloudInitFlag := true }

/-- The physics dispatch of GalaxySimulation.update (src/galaxy.js lines
418-427): set the per-frame uniforms and run computeUpdate and
cloudUpdate over every particle. -/
def physPhase (f : GpuFns) (s : SimState) (inp : FrameInput) : SimState :=
  let u := frameUniforms s inp
  { s with stars := fun i => updateStar f u (s.stars i),
           clouds := fun i => updateCloud f u (s.clouds i) }

/-- GalaxySimulation.update (src/galaxy.js lines 407-428): if a subsystem
is uninitialized, first run its generation kernel over the whole buffer
and set its flag; then dispatch the physics kernels over both buffers. -/
def update (f : GpuFns) (s : SimState) (inp : FrameInput) : SimState :=
  physPhase f (cloudGenPhase f (genPhase f s)) inp

/-- GalaxySimulation.regenerate (src/galaxy.js lines 430-433): clear both
initialization flags, leaving buffers and uniforms alone. -/
def regenerate (s : SimState) : SimState :=
  { s with initFlag := false, cloudInitFlag := false }

/-- GalaxySimulation.updateStarCount (src/galaxy.js lines 359-364): store
the new count, rebuild the star system with freshly allocated (blank)
buffers, and clear the star initialization flag. -/
def updateStarCount (s : SimState) (n : ℕ) : SimState :=
  { s with count := n, stars := fun _ => blankStar, initFlag := false }

/-! ## The animation loop delta (src/main.js, animate) -/

/-- The delta-time computation of the animate loop (src/main.js lines
314-321): the wall-clock frame delta in milliseconds, divided by 1000
and clamped from above by 0.033. -/
def frameDelta (currentTime lastFrameTime : ℚ) : ℚ :=
  min ((currentTime - lastFrameTime) / 1000) (33 / 1000)

/-! ## Concrete instances used by the witness theorems -/

/-- A concrete GpuFns instance: constant hash 1/2, identity pow, the
constant rotation angle zero (sin 0, cos 1), unit profile and falloff.
It satisfies every contract the theorems assume. -/
def gpu0 : GpuFns :=
  ⟨fun _ => 1/2, fun q => q, fun q => q, fun _ => 0, fun _ => 1,
   fun _ => 1, fun _ => 1⟩

/-- Concrete shape uniforms for witnesses. -/
def gal0 : GalaxyUniforms := ⟨13, 1/10, 3/2, 2, 0, 0⟩

/-- Concrete shape uniforms with nonzero jitter for witnesses. -/
def gal1 : GalaxyUniforms := ⟨13, 1/10, 3/2, 2, 1, 1/5⟩

/-- Concrete compute uniforms with the pointer inactive. -/
def cu0 : ComputeUniforms := ⟨1/60, vzero, 0, 5, 3, 1/10⟩

/-- A concrete particle state. -/
def pst0 : ParticleState := ⟨⟨1, 0, 0⟩, ⟨1, 0, 0⟩⟩

/-- The zeroed cloud record of a freshly allocated buffer. -/
def blankCloud : CloudData := ⟨vzero, vzero, ⟨0, 0, 0, 0⟩, 0⟩

/-- A concrete controller state whose subsystems are uninitialized. -/
def sim0 : SimState :=
  ⟨1000, gal0, ⟨⟨1, 1, 1⟩⟩, 5, 3, 1/10,
   fun _ => blankStar, fun _ => blankCloud, false, false⟩

/-- A concrete frame input with the pointer released. -/
def inp0 : FrameInput := ⟨1/60, vzero, false⟩

/-- The shape uniforms are never modified by an update call. -/
lemma update_g (f : GpuFns) (s : SimState) (inp : FrameInput) :
    (update f s inp).g = s.g := by
  by_cases h1 : s.initFlag <;> by_cases h2 : s.cloudInitFlag <;>
    simp [update, physPhase, cloudGenPhase, genPhase, h1, h2]

/-! ## Claim theorems -/

/-- C1: immediately after the generation step (computeInit for stars,
cloudInit for clouds) has run, each particle's current position equals
its anchor (original) position component-for-component: both kernels
write the very same position value to the two buffers. -/
theorem generated_position_equals_anchor (f : GpuFns) (g : GalaxyUniforms)
    (v : VisualUniforms) (idx : ℕ) :
    (computeInit f g idx).position = (computeInit f g idx).anchor ∧
    (cloudInit f g v idx).position = (cloudInit f g v idx).anchor :=
  ⟨rfl, rfl⟩

/-- C2: in every invocation of the per-frame update kernels the anchor
(originalPosition) entry is modified only by the differential-rotation
step: the new anchor is exactly the rotation of the old one, whatever
the pointer state, and it is unchanged between any two uniform settings
that agree on rotation speed and delta time (so the pointer-force and
spring displacements, which are applied to position only, never change
the anchor). -/
theorem anchor_evolves_by_rotation_only (f : GpuFns)
    (u w : ComputeUniforms) (st : ParticleState)
    (hrot : u.rotationSpeed = w.rotationSpeed)
    (hdt : u.deltaTime = w.deltaTime) :
    (computeUpdate f u st).anchor
      = applyDifferentialRotation f st.anchor u.rotationSpeed u.deltaTime ∧
    (cloudUpdate f u st).anchor
      = applyDifferentialRotation f st.anchor u.rotationSpeed u.deltaTime ∧
    (computeUpdate f u st).anchor = (computeUpdate f w st).anchor ∧
    (cloudUpdate f u st).anchor = (cloudUpdate f w st).anchor := by
  refine ⟨rfl, rfl, ?_, ?_⟩ <;>
    simp [computeUpdate, cloudUpdate, updateKernel, hrot, hdt]

/-- Witness for C2 at concrete inputs. -/
theorem anchor_evolves_by_rotation_only_witness :
    (computeUpdate gpu0 cu0 pst0).anchor
      = applyDifferentialRotation gpu0 pst0.anchor cu0.rotationSpeed
          cu0.deltaTime ∧
    (cloudUpdate gpu0 cu0 pst0).anchor
      = applyDifferentialRotation gpu0 pst0.anchor cu0.rotationSpeed
          cu0.deltaTime ∧
    (computeUpdate gpu0 cu0 pst0).anchor
      = (computeUpdate gpu0 cu0 pst0).anchor ∧
    (cloudUpdate gpu0 cu0 pst0).anchor
      = (cloudUpdate gpu0 cu0 pst0).anchor :=
  anchor_evolves_by_rotation_only gpu0 cu0 cu0 pst0 rfl rfl

/-- C3: if the pointer-active flag is zero, or the particle sits at
distance at least mouseRadius from the pointer (stated on squared
distances, which for a nonnegative radius is equivalent), then the
pointer-force displacement is exactly the zero vector. -/
theorem mouse_force_zero_when_inactive_or_far (f : GpuFns)
    (pos mouse : Vec3) (act force radius dt : ℚ)
    (_hrad : 0 ≤ radius)
    (h : act = 0 ∨ radius ^ 2 ≤ distSq pos mouse) :
    applyMouseForce f pos mouse act force radius dt = vzero := by
  unfold applyMouseForce
  rw [if_neg]
  rintro ⟨hact, hlt⟩
  rcases h with h | h
  · exact hact h
  · exact absurd hlt (not_lt.mpr h)

/-- Witness for C3: a particle at planar distance 10 with pointer radius
3 receives the zero displacement. -/
theorem mouse_force_zero_when_inactive_or_far_witness :
    applyMouseForce gpu0 ⟨10, 0, 0⟩ vzero 1 5 3 (1/60) = vzero :=
  mouse_force_zero_when_inactive_or_far gpu0 ⟨10, 0, 0⟩ vzero 1 5 3 (1/60)
    (by norm_num) (Or.inr (by norm_num [distSq, vzero]))

/-- C10: the delta-time value the animate loop passes into
GalaxySimulation.update is the wall-clock frame delta (milliseconds
divided by 1000) clamped from above to 0.033 seconds, so one step never
advances simulated time by more than 33 ms. -/
theorem animate_delta_clamped (c l : ℚ) :
    frameDelta c l ≤ 33 / 1000 ∧
    (c - l ≤ 33 → frameDelta c l = (c - l) / 1000) ∧
    (33 ≤ c - l → frameDelta c l = 33 / 1000) := by
  unfold frameDelta
  refine ⟨min_le_right _ _, fun h2 => min_eq_left (by linarith),
    fun h3 => min_eq_right (by linarith)⟩

/-- Witness for C10: a 100 ms stall is clamped to 0.033 s. -/
theorem animate_delta_clamped_witness : frameDelta 2000 1900 = 33 / 1000 :=
  (animate_delta_clamped 2000 1900).2.2 (by norm_num)

/-- C6: with armCount=2, spiralTightness=1.5, galaxyRadius=13,
randomness=0 and armWidth=0, every generated star's planar angle is
exactly armIndex * π + normalizedRadius * 1.5 * 2π (π being half the
shader literal twoPi), the arm index is 0 or 1, and the radial jitter is
exactly zero, so every particle lies exactly on one of the two ideal
spiral curves. -/
theorem star_angle_two_arm_exact (f : GpuFns) (g : GalaxyUniforms) (i : ℕ)
    (hhash : ∀ s, 0 ≤ f.hash s ∧ f.hash s < 1)
    (harm : g.armCount = 2) (htight : g.spiralTightness = 3/2)
    (_hrad : g.radius = 13) (hrand : g.randomness = 0)
    (hwidth : g.armWidth = 0) :
    starAngle f g i
      = starArmIndex f g i * (twoPi / 2)
        + starNormRadius f g i * (3/2) * twoPi ∧
    (starArmIndex f g i = 0 ∨ starArmIndex f g i = 1) ∧
    starRadiusOffset f g i = 0 := by
  obtain ⟨h2lo, h2hi⟩ := hhash (starSeed i + 2)
  have hfloor : ⌊f.hash (starSeed i + 2) * g.armCount⌋ = 0 ∨
      ⌊f.hash (starSeed i + 2) * g.armCount⌋ = 1 := by
    rw [harm]
    have hlo : (0 : ℤ) ≤ ⌊f.hash (starSeed i + 2) * 2⌋ :=
      Int.floor_nonneg.mpr (by nlinarith)
    have hhi : ⌊f.hash (starSeed i + 2) * 2⌋ < 2 := by
      rw [Int.floor_lt]; push_cast; nlinarith
    omega
  refine ⟨?_, ?_, ?_⟩
  · unfold starAngle starArmAngle starSpiralAngle starAngleOffset
    rw [harm, htight, hrand]; ring
  · unfold starArmIndex floorQ
    rcases hfloor with h | h
    · left; rw [h]; norm_num
    · right; rw [h]; norm_num
  · unfold starRadiusOffset; rw [hwidth]; ring

/-- Witness for C6 at the concrete gpu0 / gal0 instance. -/
theorem star_angle_two_arm_exact_witness :
    starAngle gpu0 gal0 0
      = starArmIndex gpu0 gal0 0 * (twoPi / 2)
        + starNormRadius gpu0 gal0 0 * (3/2) * twoPi ∧
    (starArmIndex gpu0 gal0 0 = 0 ∨ starArmIndex gpu0 gal0 0 = 1) ∧
    starRadiusOffset gpu0 gal0 0 = 0 :=
  star_angle_two_arm_exact gpu0 gal0 0
    (fun _ => ⟨by norm_num [gpu0], by norm_num [gpu0]⟩)
    rfl rfl rfl rfl rfl

/-- C7: every generated star has |position.y| bounded by the thickness
uniform (via the generation-time thickness-factor bound 1.2), the drawn
radius is at most galaxyRadius, and the squared planar distance from the
axis is at most (galaxyRadius + armWidth/2)^2. -/
theorem generated_star_bounds (f : GpuFns) (g : GalaxyUniforms) (i : ℕ)
    (hhash : ∀ s, 0 ≤ f.hash s ∧ f.hash s < 1)
    (hpow : ∀ q, 0 ≤ q → q < 1 → 0 ≤ f.powHalf q ∧ f.powHalf q ≤ 1)
    (hpyth : ∀ a, f.sinF a ^ 2 + f.cosF a ^ 2 = 1)
    (hth : 0 ≤ g.thickness) (hrad : 0 < g.radius) (hw : 0 ≤ g.armWidth) :
    |(starPosition f g i).y| ≤ g.thickness ∧
    starRadius f g i ≤ g.radius ∧
    planarSq (starPosition f g i) ≤ (g.radius + g.armWidth / 2) ^ 2 := by
  obtain ⟨h1lo, h1hi⟩ := hhash (starSeed i + 1)
  obtain ⟨hplo, hphi⟩ := hpow _ h1lo h1hi
  obtain ⟨h4lo, h4hi⟩ := hhash (starSeed i + 4)
  obtain ⟨h5lo, h5hi⟩ := hhash (starSeed i + 5)
  have hradius : starRadius f g i
      = f.powHalf (f.hash (starSeed i + 1)) * g.radius := rfl
  have hr0 : 0 ≤ starRadius f g i := by
    rw [hradius]; exact mul_nonneg hplo (le_of_lt hrad)
  have hrR : starRadius f g i ≤ g.radius := by rw [hradius]; nlinarith
  have hnorm : starNormRadius f g i = f.powHalf (f.hash (starSeed i + 1)) := by
    unfold starNormRadius
    rw [hradius, mul_div_assoc, div_self (ne_of_gt hrad), mul_one]
  have habs5 : |f.hash (starSeed i + 5) - 1/2| ≤ 1/2 :=
    abs_le.mpr ⟨by linarith, by linarith⟩
  have htf : starThicknessFactor f g i
      = 1 - f.powHalf (f.hash (starSeed i + 1)) + 1/5 := by
    unfold starThicknessFactor; rw [hnorm]
  have htf0 : 0 ≤ starThicknessFactor f g i := by rw [htf]; linarith
  have htf65 : starThicknessFactor f g i ≤ 6/5 := by rw [htf]; linarith
  have hy : (starPosition f g i).y
      = (f.hash (starSeed i + 5) - 1/2) * g.thickness
        * starThicknessFactor f g i := rfl
  have hyb : |(starPosition f g i).y| ≤ g.thickness := by
    rw [hy, abs_mul, abs_mul, abs_of_nonneg hth, abs_of_nonneg htf0]
    have t1 : |f.hash (starSeed i + 5) - 1/2| * g.thickness
        ≤ (1/2) * g.thickness := mul_le_mul_of_nonneg_right habs5 hth
    have t2 : |f.hash (starSeed i + 5) - 1/2| * g.thickness
          * starThicknessFactor f g i
        ≤ (1/2) * g.thickness * starThicknessFactor f g i :=
      mul_le_mul_of_nonneg_right t1 htf0
    have t3 : (1/2) * g.thickness * starThicknessFactor f g i
        ≤ (1/2) * g.thickness * (6/5) := by
      apply mul_le_mul_of_nonneg_left htf65 (by positivity)
    linarith
  have habs4 : |starRadiusOffset f g i| ≤ g.armWidth / 2 := by
    unfold starRadiusOffset
    rw [abs_mul, abs_of_nonneg hw]
    have h45 : |f.hash (starSeed i + 4) - 1/2| ≤ 1/2 :=
      abs_le.mpr ⟨by linarith, by linarith⟩
    nlinarith [abs_nonneg (f.hash (starSeed i + 4) - 1/2)]
  have hor : |starOffsetRadius f g i| ≤ g.radius + g.armWidth / 2 := by
    unfold starOffsetRadius
    calc |starRadius f g i + starRadiusOffset f g i|
        ≤ |starRadius f g i| + |starRadiusOffset f g i| := abs_add _ _
      _ ≤ g.radius + g.armWidth / 2 := by
          rw [abs_of_nonneg hr0]; linarith
  have hps : planarSq (starPosition f g i) = starOffsetRadius f g i ^ 2 := by
    have h := hpyth (starAngle f g i)
    unfold planarSq starPosition
    dsimp only
    linear_combination starOffsetRadius f g i ^ 2 * h
  have hfinal : planarSq (starPosition f g i)
      ≤ (g.radius + g.armWidth / 2) ^ 2 := by
    rw [hps]
    calc starOffsetRadius f g i ^ 2
        = |starOffsetRadius f g i| ^ 2 := (sq_abs _).symm
      _ ≤ (g.radius + g.armWidth / 2) ^ 2 :=
          pow_le_pow_left₀ (abs_nonneg _) hor 2
  exact ⟨hyb, hrR, hfinal⟩

/-- Witness for C7 at the concrete gpu0 / gal1 instance. -/
theorem generated_star_bounds_witness :
    |(starPosition gpu0 gal1 0).y| ≤ gal1.thickness ∧
    starRadius gpu0 gal1 0 ≤ gal1.radius ∧
    planarSq (starPosition gpu0 gal1 0)
      ≤ (gal1.radius + gal1.armWidth / 2) ^ 2 :=
  generated_star_bounds gpu0 gal1 0
    (fun _ => ⟨by norm_num [gpu0], by norm_num [gpu0]⟩)
    (fun _ hq0 hq1 => ⟨hq0, le_of_lt hq1⟩)
    (fun _ => by norm_num [gpu0])
    (by norm_num [gal1]) (by norm_num [gal1]) (by norm_num [gal1])

/-- C8: the stored star sparsity factor equals the clamp to [0,1] of
(|radiusOffset|/(armWidth/2 + 0.01) + |angleOffset|/(randomness/2 +
0.01))/2, it always lies in [0,1], and both epsilon-guarded denominators
are strictly positive even when armWidth or randomness is 0. -/
theorem star_sparsity_clamped (f : GpuFns) (g : GalaxyUniforms) (i : ℕ)
    (hw : 0 ≤ g.armWidth) (hr : 0 ≤ g.randomness) :
    starSparsity f g i
      = max 0 (min ((starRadialSparsity f g i + starAngularSparsity f g i)
          * (1/2)) 1) ∧
    0 ≤ starSparsity f g i ∧ starSparsity f g i ≤ 1 ∧
    0 < g.armWidth * (1/2) + 1/100 ∧ 0 < g.randomness * (1/2) + 1/100 := by
  have hd1 : (0:ℚ) < g.armWidth * (1/2) + 1/100 := by linarith
  have hd2 : (0:ℚ) < g.randomness * (1/2) + 1/100 := by linarith
  have hrad0 : 0 ≤ starRadialSparsity f g i :=
    div_nonneg (abs_nonneg _) (le_of_lt hd1)
  have hang0 : 0 ≤ starAngularSparsity f g i :=
    div_nonneg (abs_nonneg _) (le_of_lt hd2)
  have hmin0 : 0 ≤ starSparsity f g i := by
    unfold starSparsity
    exact le_min (by linarith) (by norm_num)
  refine ⟨?_, hmin0, ?_, hd1, hd2⟩
  · unfold starSparsity
    exact (max_eq_right (le_min (by linarith) (by norm_num))).symm
  · unfold starSparsity; exact min_le_right _ _

/-- Witness for C8 at the concrete gpu0 / gal1 instance. -/
theorem star_sparsity_clamped_witness :
    starSparsity gpu0 gal1 0
      = max 0 (min ((starRadialSparsity gpu0 gal1 0
          + starAngularSparsity gpu0 gal1 0) * (1/2)) 1) ∧
    0 ≤ starSparsity gpu0 gal1 0 ∧ starSparsity gpu0 gal1 0 ≤ 1 ∧
    0 < gal1.armWidth * (1/2) + 1/100 ∧
    0 < gal1.randomness * (1/2) + 1/100 :=
  star_sparsity_clamped gpu0 gal1 0 (by norm_num [gal1]) (by norm_num [gal1])

/-- C5: the generation step is a deterministic function of the particle
index and the shape uniforms with no hidden state: for an uninitialized
subsystem its output buffer is exactly genStars of the current uniforms,
any two uninitialized states with the same uniforms generate the same
buffer regardless of their previous contents, and regenerate() followed
by the next update reproduces the original generated distribution
exactly (positions, anchors, velocities and sparsity attributes). -/
theorem generation_deterministic (f : GpuFns) (s : SimState)
    (inp : FrameInput) (hs : s.initFlag = false) :
    (genPhase f s).stars = genStars f s.g ∧
    (∀ t : SimState, t.initFlag = false → t.g = s.g →
      (genPhase f t).stars = (genPhase f s).stars) ∧
    (genPhase f (regenerate (update f s inp))).stars = genStars f s.g ∧
    (genPhase f (regenerate (update f s inp))).stars
      = (genPhase f s).stars := by
  have h1 : (genPhase f s).stars = genStars f s.g := by simp [genPhase, hs]
  have h3 : (genPhase f (regenerate (update f s inp))).stars
      = genStars f s.g := by
    have hflag : (regenerate (update f s inp)).initFlag = false := rfl
    have hg : (regenerate (update f s inp)).g = s.g := update_g f s inp
    simp [genPhase, hflag, hg]
  refine ⟨h1, fun t ht htg => ?_, h3, h3.trans h1.symm⟩
  simp [genPhase, ht, hs, htg]

/-- Witness for C5 at the concrete uninitialized state sim0. -/
theorem generation_deterministic_witness :
    (genPhase gpu0 sim0).stars = genStars gpu0 sim0.g ∧
    (genPhase gpu0 (regenerate (update gpu0 sim0 inp0))).stars
      = genStars gpu0 sim0.g ∧
    (genPhase gpu0 (regenerate (update gpu0 sim0 inp0))).stars
      = (genPhase gpu0 sim0).stars :=
  ⟨(generation_deterministic gpu0 sim0 inp0 rfl).1,
   (generation_deterministic gpu0 sim0 inp0 rfl).2.2.1,
   (generation_deterministic gpu0 sim0 inp0 rfl).2.2.2⟩

/-- C9: after regenerate() or a star-count change, the next update() call
runs the one-time generation step before its physics step: the physics
kernel is applied to the freshly generated buffer, and an update entered
with an uninitialized subsystem never dispatches physics on the stale
(ungenerated) buffer contents. -/
theorem generation_precedes_physics (f : GpuFns) (s : SimState)
    (inp : FrameInput) (n : ℕ) :
    (update f (regenerate s) inp).stars
      = (fun i => updateStar f (frameUniforms s inp) (genStars f s.g i)) ∧
    (update f (updateStarCount s n) inp).stars
      = (fun i => updateStar f (frameUniforms s inp) (genStars f s.g i)) ∧
    (s.initFlag = false →
      (update f s inp).stars
        = (fun i => updateStar f (frameUniforms s inp) (genStars f s.g i))) ∧
    (update f (regenerate s) inp).clouds
      = (fun i => updateCloud f (frameUniforms s inp)
          (genClouds f s.g s.v i)) ∧
    (s.cloudInitFlag = false →
      (update f s inp).clouds
        = (fun i => updateCloud f (frameUniforms s inp)
            (genClouds f s.g s.v i))) := by
  refine ⟨?_, ?_, fun h => ?_, ?_, fun h => ?_⟩
  · simp [update, physPhase, cloudGenPhase, genPhase, regenerate,
      frameUniforms]
  · by_cases hc : s.cloudInitFlag <;>
      simp [update, physPhase, cloudGenPhase, genPhase, updateStarCount,
        frameUniforms, hc]
  · by_cases hc : s.cloudInitFlag <;>
      simp [update, physPhase, cloudGenPhase, genPhase, frameUniforms, h, hc]
  · simp [update, physPhase, cloudGenPhase, genPhase, regenerate,
      frameUniforms]
  · by_cases hi : s.initFlag <;>
      simp [update, physPhase, cloudGenPhase, genPhase, frameUniforms, h, hi]

/-- Witness for C9 at the concrete uninitialized state sim0. -/
theorem generation_precedes_physics_witness :
    (update gpu0 sim0 inp0).stars
      = (fun i => updateStar gpu0 (frameUniforms sim0 inp0)
          (genStars gpu0 sim0.g i)) ∧
    (update gpu0 sim0 inp0).clouds
      = (fun i => updateCloud gpu0 (frameUniforms sim0 inp0)
          (genClouds gpu0 sim0.g sim0.v i)) :=
  ⟨(generation_precedes_physics gpu0 sim0 inp0 0).2.2.1 rfl,
   (generation_precedes_physics gpu0 sim0 inp0 0).2.2.2.2 rfl⟩

/-! ## The relaxation property (claim about distance(position, anchor)) -/

/-- Adding the zero vector changes nothing. -/
lemma vadd_vzero (a : Vec3) : vadd a vzero = a := by
  unfold vadd vzero; cases a; simp

/-- Rotating two points that sit at the same planar distance from the
axis turns both through the same angle and preserves their squared
separation, for any sin and cos satisfying the Pythagorean identity. -/
lemma distSq_rotated_eq (f : GpuFns) (p q : Vec3) (speed dt : ℚ)
    (hpyth : ∀ a, f.sinF a ^ 2 + f.cosF a ^ 2 = 1)
    (hpl : planarSq p = planarSq q) :
    distSq (applyDifferentialRotation f p speed dt)
      (applyDifferentialRotation f q speed dt) = distSq p q := by
  have h := hpyth (speed * dt * f.rotProfile (planarSq p))
  unfold applyDifferentialRotation distSq
  rw [← hpl]
  dsimp only
  linear_combination ((p.x - q.x) ^ 2 + (p.z - q.z) ^ 2) * h

/-- One spring step contracts the squared separation by the factor
(1 - stiffness*dt)^2. -/
lemma distSq_spring_step (p a : Vec3) (k dt : ℚ) :
    distSq (vadd p (applySpringForce p a k dt)) a
      = (1 - k * dt) ^ 2 * distSq p a := by
  unfold distSq vadd applySpringForce vsmul vsub
  dsimp only
  ring

/-- The GpuFns instance of the counterexample: the rotation profile
1/(rSq + 1/2) is strictly larger for closer particles (a genuinely
differential rotation), and sin and cos satisfy the Pythagorean identity
at every input: they are the rational circle point (4/5, 3/5) at angle 1
and (0, 1) elsewhere. -/
def cexGpu : GpuFns :=
  ⟨fun _ => 1/2, fun q => q, fun q => q,
   fun a => if a = 1 then 4/5 else 0,
   fun a => if a = 1 then 3/5 else 1,
   fun rsq => 1 / (rsq + 1/2),
   fun _ => 1⟩

/-- Compute uniforms of the counterexample: pointer inactive, constant
rotation speed 150, delta time 1/100. -/
def cexU : ComputeUniforms := ⟨1/100, vzero, 0, 5, 3, 150⟩

/-- A star displaced radially inward from its anchor: position at planar
radius 1, anchor at planar radius 2. -/
def cexSt : ParticleState := ⟨⟨1, 0, 0⟩, ⟨2, 0, 0⟩⟩

/-- C4 counterexample: the claim fails as stated.  With the pointer
inactive and a constant rotation speed, one star update step strictly
increases the squared distance between position and anchor: the
differential rotation turns the position (planar radius 1, angle 1,
cos 3/5, sin 4/5) through a larger angle than the anchor (planar radius
2, angle 1/3, cos 1, sin 0), and the spring contraction by (1 - 2*dt)^2
with dt = 1/100 does not make up for it: the squared separation grows
from 1 to 31213/12500. -/
theorem relaxation_counterexample :
    cexU.mouseActive = 0 ∧
    distSq cexSt.position cexSt.anchor
      < distSq (computeUpdate cexGpu cexU cexSt).position
          (computeUpdate cexGpu cexU cexSt).anchor := by
  constructor
  · rfl
  · norm_num [computeUpdate, updateKernel, applyDifferentialRotation,
      applyMouseForce, applySpringForce, distSq, planarSq, vadd, vsub,
      vsmul, vzero, cexGpu, cexU, cexSt]

/-- C4 amended: with the pointer inactive, if position and anchor sit at
the same planar distance from the axis (in particular whenever they
coincide, as immediately after generation), and the spring factor
stiffness*dt lies in [0, 2], then one update step does not increase the
squared distance between position and anchor; in general the
differential rotation can increase the separation when the two points
sit at different planar radii. -/
theorem relaxation_amended (f : GpuFns) (k : ℚ) (u : ComputeUniforms)
    (st : ParticleState)
    (hpyth : ∀ a, f.sinF a ^ 2 + f.cosF a ^ 2 = 1)
    (hact : u.mouseActive = 0)
    (hpl : planarSq st.position = planarSq st.anchor)
    (hk0 : 0 ≤ k * u.deltaTime) (hk2 : k * u.deltaTime ≤ 2) :
    distSq (updateKernel f k u st).position (updateKernel f k u st).anchor
      ≤ distSq st.position st.anchor := by
  set p := applyDifferentialRotation f st.position u.rotationSpeed
    u.deltaTime with hp
  set a := applyDifferentialRotation f st.anchor u.rotationSpeed
    u.deltaTime with ha
  have hmouse : applyMouseForce f p u.mouse u.mouseActive u.mouseForce
      u.mouseRadius u.deltaTime = vzero := by
    unfold applyMouseForce
    rw [if_neg]
    rintro ⟨hne, _⟩
    exact hne hact
  have hkernel : updateKernel f k u st
      = ⟨vadd p (applySpringForce p a k u.deltaTime), a⟩ := by
    unfold updateKernel
    dsimp only
    rw [← hp, ← ha, hmouse, vadd_vzero]
  rw [hkernel]
  have hrot : distSq p a = distSq st.position st.anchor :=
    distSq_rotated_eq f st.position st.anchor u.rotationSpeed u.deltaTime
      hpyth hpl
  have hspring := distSq_spring_step p a k u.deltaTime
  have hnn : 0 ≤ distSq st.position st.anchor := by
    unfold distSq; positivity
  have hsq : (1 - k * u.deltaTime) ^ 2 ≤ 1 := by
    nlinarith [mul_nonneg hk0 (by linarith : (0:ℚ) ≤ 2 - k * u.deltaTime)]
  calc distSq (vadd p (applySpringForce p a k u.deltaTime)) a
      = (1 - k * u.deltaTime) ^ 2 * distSq p a := hspring
    _ = (1 - k * u.deltaTime) ^ 2 * distSq st.position st.anchor := by
        rw [hrot]
    _ ≤ 1 * distSq st.position st.anchor :=
        mul_le_mul_of_nonneg_right hsq hnn
    _ = distSq st.position st.anchor := one_mul _

/-- Witness for C4 (amended) at the concrete instance gpu0 / cu0 / pst0:
the pointer is inactive, position and anchor coincide, and the star
spring factor is 2/60. -/
theorem relaxation_amended_witness :
    distSq (updateKernel gpu0 2 cu0 pst0).position
        (updateKernel gpu0 2 cu0 pst0).anchor
      ≤ distSq pst0.position pst0.anchor :=
  relaxation_amended gpu0 2 cu0 pst0
    (fun _ => by norm_num [gpu0]) rfl rfl
    (by norm_num [cu0]) (by norm_num [cu0])

end GalaxySim
